import Mathlib

/-!
Verification of the orbit core (satellite registry, safety shield, launcher)
against its natural-language specification.

The definitions below are a shallow embedding of the Python sources:
  * `src/orbit/core/satellite.py`      (SatelliteParameter, Satellite)
  * `src/orbit/core/shield.py`         (SafetyShield)
  * `src/orbit/core/constellation.py`  (Constellation)
  * `src/orbit/core/launcher.py`       (Launcher)
  * `src/orbit/core/exceptions.py`     (exception hierarchy)

Python dicts are embedded as insertion-ordered association lists with unique
keys, Python values as the inductive `JVal`, raised exceptions as `Except` /
explicit error components, and the ambient machine (filesystem layout for
path resolution, the subprocess facility, availability of the jinja2 import)
as explicit parameters.
-/

namespace Orbit

/-- Embedding of dynamically-typed Python values (the value universe that the
orbit core actually stores in parameter maps, defaults, enums and exported
tool schemas): strings, ints, bools, None, lists and string-keyed dicts. -/
inductive JVal where
  | s (v : String)
  | i (v : Int)
  | b (v : Bool)
  | null
  | arr (vs : List JVal)
  | obj (fields : List (String × JVal))

mutual

/-- Python `==` on embedded values (structural equality). -/
def jvalBeq : JVal → JVal → Bool
  | JVal.s a, JVal.s b => a == b
  | JVal.i a, JVal.i b => a == b
  | JVal.b a, JVal.b b => a == b
  | JVal.null, JVal.null => true
  | JVal.arr a, JVal.arr b => jlistBeq a b
  | JVal.obj a, JVal.obj b => jfieldsBeq a b
  | _, _ => false

/-- Python `==` on embedded lists of values. -/
def jlistBeq : List JVal → List JVal → Bool
  | [], [] => true
  | a :: as1, b :: bs => jvalBeq a b && jlistBeq as1 bs
  | _, _ => false

/-- Python `==` on embedded dicts (the orbit core never compares dicts out of
insertion order, so ordered comparison is faithful here). -/
def jfieldsBeq : List (String × JVal) → List (String × JVal) → Bool
  | [], [] => true
  | (k1, a) :: t1, (k2, b) :: t2 => k1 == k2 && jvalBeq a b && jfieldsBeq t1 t2
  | _, _ => false

end

mutual

/-- Python `str()` of an embedded value (used by template substitution).
The orbit templates only ever substitute scalars, so list/dict rendering
delegates to the recursive repr below. -/
def pyStr : JVal → String
  | JVal.s v => v
  | JVal.i v => toString v
  | JVal.b true => "True"
  | JVal.b false => "False"
  | JVal.null => "None"
  | JVal.arr vs => "[" ++ pyStrList vs ++ "]"
  | JVal.obj fs => "\x7b" ++ pyStrFields fs ++ "\x7d"

/-- Comma-joined reprs of list elements (Python `str` of a list shows element
reprs; scalar elements are what the orbit code exercises). -/
def pyStrList : List JVal → String
  | [] => ""
  | [v] => pyRepr v
  | v :: rest => pyRepr v ++ ", " ++ pyStrList rest

/-- Comma-joined reprs of dict entries. -/
def pyStrFields : List (String × JVal) → String
  | [] => ""
  | [(k, v)] => "\x27" ++ k ++ "\x27: " ++ pyRepr v
  | (k, v) :: rest => "\x27" ++ k ++ "\x27: " ++ pyRepr v ++ ", " ++ pyStrFields rest

/-- Python `repr()` of an embedded value (strings are quoted). -/
def pyRepr : JVal → String
  | JVal.s v => "\x27" ++ v ++ "\x27"
  | JVal.i v => toString v
  | JVal.b true => "True"
  | JVal.b false => "False"
  | JVal.null => "None"
  | JVal.arr vs => "[" ++ pyStrList vs ++ "]"
  | JVal.obj fs => "\x7b" ++ pyStrFields fs ++ "\x7d"

end

/-- Dict lookup on an insertion-ordered association list (Python `d.get(k)` /
`d[k]`; keys are unique by the dict invariant). -/
def alookup {κ α : Type} [BEq κ] : List (κ × α) → κ → Option α
  | [], _ => none
  | (k2, v) :: t, k => if k2 == k then some v else alookup t k

/-- Python `k in d`. -/
def containsKey {κ α : Type} [BEq κ] (l : List (κ × α)) (k : κ) : Bool :=
  (alookup l k).isSome

/-- Python `d[k] = v`: replace in place when the key exists, append otherwise
(insertion order of first assignment is preserved, as for a Python dict). -/
def aset {κ α : Type} [BEq κ] : List (κ × α) → κ → α → List (κ × α)
  | [], k, v => [(k, v)]
  | (k2, v2) :: t, k, v => if k2 == k then (k, v) :: t else (k2, v2) :: aset t k v

/-- Python `del d[k]` (no-op when absent; the orbit code only deletes present
keys). -/
def aerase {κ α : Type} [BEq κ] : List (κ × α) → κ → List (κ × α)
  | [], _ => []
  | (k2, v2) :: t, k => if k2 == k then t else (k2, v2) :: aerase t k

/-- `SafetyLevel` enum from `satellite.py`. -/
inductive SafetyLevel where
  | SAFE
  | MODERATE
  | DANGEROUS
  | CRITICAL
deriving DecidableEq, BEq, Repr

/-- The `.value` string of each `SafetyLevel` member. -/
def SafetyLevel.value : SafetyLevel → String
  | SAFE => "safe"
  | MODERATE => "moderate"
  | DANGEROUS => "dangerous"
  | CRITICAL => "critical"

/-- `ShieldAction` enum from `shield.py`. -/
inductive ShieldAction where
  | ALLOW
  | DENY
  | REQUIRE_CONFIRMATION
deriving DecidableEq, BEq, Repr

/-- `SatelliteParameter` dataclass from `satellite.py`.  A Python
`default=None` / `enum=None` is `none` here. -/
structure SatelliteParameter where
  name : String
  type : String
  description : String
  required : Bool := true
  default : Option JVal := none
  enum : Option (List JVal) := none

/-- One piece of an AppleScript command template: literal text or a named
jinja2 placeholder such as `\x7b\x7b msg \x7d\x7d`.  The Python source keeps
templates as raw strings and hands them to jinja2 (or `str.format` as a
fallback); this embedding keeps them pre-parsed into their substitution
structure. -/
inductive TmplPart where
  | lit (s : String)
  | var (name : String)

/-- `Satellite` dataclass from `satellite.py`.  The free-form
free-form result-parsing callable is embedded as an optional string transformer,
which is how `Launcher.launch` applies it to the raw stdout. -/
structure Satellite where
  name : String
  description : String
  category : String
  parameters : List SatelliteParameter
  safety_level : SafetyLevel
  applescript_template : List TmplPart
  resultParser : Option (String → String) := none
  examples : List (List (String × JVal)) := []
  version : String := "1.0.0"
  author : String := ""

/-- `Satellite.validate_parameters` from `satellite.py`: first a pass over
all parameter specs rejecting a required spec whose name is absent from the
supplied dict, then a pass rejecting a supplied value outside a truthy enum
list.  Returns `True` on success, raises `ParameterValidationError` (the
`Except.error` carries its message) otherwise. -/
def Satellite.validate_parameters (sat : Satellite) (parameters : List (String × JVal)) :
    Except String Bool :=
  match sat.parameters.findSome? (fun p =>
      if p.required && !(containsKey parameters p.name) then some p.name else none) with
  | some nm =>
      Except.error ("Missing required parameter \x27" ++ nm ++ "\x27 for satellite \x27" ++
        sat.name ++ "\x27")
  | none =>
    match sat.parameters.findSome? (fun p =>
        match p.enum with
        | some es =>
          -- `if param.enum:` - None and the empty list are both falsy
          if es.isEmpty then none
          else
            match alookup parameters p.name with
            | some v => if es.any (fun e => jvalBeq e v) then none else some (p, es, v)
            | none => none
        | none => none) with
    | some (p, es, v) =>
        Except.error ("Parameter \x27" ++ p.name ++ "\x27 must be one of " ++
          pyStr (JVal.arr es) ++ ", got \x27" ++ pyStr v ++ "\x27")
    | none => Except.ok true

/-- A filesystem path as `pathlib.Path` stores it: whether it is anchored at
the root, and its component parts. -/
structure PPath where
  absolute : Bool
  parts : List String
deriving DecidableEq, Repr

/-- Character-level splitter behind `splitComponents` (`cur` holds the
current component reversed). -/
def splitCompsAux : List Char → List Char → List String
  | [], cur => if cur.isEmpty then [] else [String.mk cur.reverse]
  | c :: rest, cur =>
    if c = '/' then
      if cur.isEmpty then splitCompsAux rest []
      else String.mk cur.reverse :: splitCompsAux rest []
    else splitCompsAux rest (c :: cur)

/-- Split a path string into its non-empty components (what `pathlib` keeps
as the parts after the anchor). -/
def splitComponents (s : String) : List String :=
  splitCompsAux s.data []

/-- Whether the first string starts with the second. -/
def strStartsWith (s pre : String) : Bool :=
  pre.data.isPrefixOf s.data

/-- `Path(s)` for a literal path string. -/
def mkPath (s : String) : PPath :=
  ⟨strStartsWith s "/", splitComponents s⟩

/-- The ambient process environment that `Path.expanduser` / `Path.resolve`
read: the home directory and the current working directory (both absolute
path strings). -/
structure Env where
  home : String
  cwd : String

/-- `Path.expanduser()`: a leading lone `~` is replaced by the home
directory.  (The `~user` form for another account is not exercised by the
orbit core.) -/
def expanduser (home : String) (p : String) : String :=
  if p = "~" then home
  else
    match p.data with
    | '~' :: '/' :: rest => home ++ String.mk ('/' :: rest)
    | _ => p

/-- Textual part of `Path.resolve()`: drop `.` components and fold `..` into
the parent.  (Symlink resolution needs a filesystem and is outside this pure
model; on the paths the orbit checks it is the identity.) -/
def normalizeParts (parts : List String) : List String :=
  parts.foldl (fun acc c =>
    if c = "." then acc
    else if c = ".." then acc.dropLast
    else acc ++ [c]) []

/-- `Path(p).expanduser().resolve()`: expand the home directory, anchor a
relative path at the current working directory, and normalize. -/
def resolvePath (env : Env) (p : String) : PPath :=
  let q := expanduser env.home p
  let full := if strStartsWith q "/" then q else env.cwd ++ "/" ++ q
  ⟨true, normalizeParts (splitComponents full)⟩

/-- `PurePath.is_relative_to`: same anchor and the candidate ancestor's
parts are a prefix of the path's parts. -/
def isRelativeTo (a b : PPath) : Bool :=
  a.absolute == b.absolute && b.parts.isPrefixOf a.parts

/-- Substring containment on character lists (`needle in haystack`). -/
def hasSubstrList (needle : List Char) : List Char → Bool
  | [] => needle.isEmpty
  | c :: t => needle.isPrefixOf (c :: t) || hasSubstrList needle t

/-- Python `needle in haystack` for strings. -/
def strContains (haystack needle : String) : Bool :=
  hasSubstrList needle.data haystack.data

/-- Whitespace characters removed by Python `str.strip()`. -/
def isSpaceChar (c : Char) : Bool :=
  c = ' ' || c = '\t' || c = '\n' || c = '\r'

/-- Drop leading whitespace from a character list. -/
def dropLeadingSpace : List Char → List Char
  | [] => []
  | c :: t => if isSpaceChar c then dropLeadingSpace t else c :: t

/-- Python `str.strip()`: remove leading and trailing whitespace. -/
def pyStrip (s : String) : String :=
  String.mk ((dropLeadingSpace ((dropLeadingSpace s.data).reverse)).reverse)

/-- `SafetyShield.DEFAULT_RULES` from `shield.py`. -/
def DEFAULT_RULES : List (SafetyLevel × ShieldAction) :=
  [(SafetyLevel.SAFE, ShieldAction.ALLOW),
   (SafetyLevel.MODERATE, ShieldAction.REQUIRE_CONFIRMATION),
   (SafetyLevel.DANGEROUS, ShieldAction.REQUIRE_CONFIRMATION),
   (SafetyLevel.CRITICAL, ShieldAction.DENY)]

/-- `SafetyShield.PROTECTED_PATHS` from `shield.py`. -/
def PROTECTED_PATHS : List PPath :=
  ["/System", "/Library", "/usr", "/bin", "/sbin", "/etc", "/var"].map mkPath

/-- `SafetyShield.DANGEROUS_COMMANDS` from `shield.py` (the third entry is
the fork bomb `:()\x7b :|:& \x7d;:`). -/
def DANGEROUS_COMMANDS : List String :=
  ["rm -rf /",
   "dd if=/dev/zero",
   ":()\x7b :|:& \x7d;:",
   "mkfs",
   "chmod 000",
   "chown root"]

/-- The state of a `SafetyShield` instance. -/
structure Shield where
  rules : List (SafetyLevel × ShieldAction)
  confirmation_callback : Option (Satellite → List (String × JVal) → Bool)
  protected_paths : List PPath
  dangerous_commands : List String

/-- `SafetyShield.__init__`: each collection argument goes through Python
`or`, so `None` *and* the empty collection are replaced by the class-level
default. -/
def mkShield
    (rules : Option (List (SafetyLevel × ShieldAction)))
    (confirmation_callback : Option (Satellite → List (String × JVal) → Bool))
    (protected_paths : Option (List PPath))
    (dangerous_commands : Option (List String)) : Shield :=
  { rules := match rules with
      | some r@(_ :: _) => r
      | _ => DEFAULT_RULES
    confirmation_callback := confirmation_callback
    protected_paths := match protected_paths with
      | some p@(_ :: _) => p
      | _ => PROTECTED_PATHS
    dangerous_commands := match dangerous_commands with
      | some d@(_ :: _) => d
      | _ => DANGEROUS_COMMANDS }

/-- Exceptions escaping `SafetyShield.validate`: `ShieldError`, or a
`TypeError` when a non-string reaches `Path()` / the `in` operator. -/
inductive ShieldExc where
  | shieldErr (message : String)
  | typeErr (message : String)
deriving DecidableEq, Repr

/-- Loop body of `SafetyShield._check_path`: the first protected entry the
resolved path is relative to raises `ShieldError` (the `except ValueError:
pass` in the source only guards a Windows-only failure of
`is_relative_to`). -/
def checkPathLoop (resolved : PPath) (path : String) : List PPath → Option String
  | [] => none
  | prot :: rest =>
    if isRelativeTo resolved prot then some ("Protected path detected: " ++ path)
    else checkPathLoop resolved path rest

/-- `SafetyShield._check_path`. -/
def checkPath (env : Env) (protectedPaths : List PPath) (path : String) : Option String :=
  checkPathLoop (resolvePath env path) path protectedPaths

/-- `SafetyShield._check_command`: the first dangerous substring hit raises
`ShieldError`. -/
def checkCommand (dangerousCommands : List String) (command : String) : Option String :=
  match dangerousCommands with
  | [] => none
  | d :: rest =>
    if strContains command d then some ("Dangerous command detected: " ++ command)
    else checkCommand rest command

/-- `SafetyShield.validate` from `shield.py`: look the rule action up (DENY
when the level is unmapped), run the unconditional path check, then the
unconditional command check, then apply the rule action.  Returns `True` on
success. -/
def Shield.validate (env : Env) (sh : Shield) (satellite : Satellite)
    (parameters : List (String × JVal)) : Except ShieldExc Bool :=
  let action := (alookup sh.rules satellite.safety_level).getD ShieldAction.DENY
  let pathCheck : Option ShieldExc :=
    match alookup parameters "path" with
    | none => none
    | some (JVal.s p) => (checkPath env sh.protected_paths p).map ShieldExc.shieldErr
    | some _ => some (ShieldExc.typeErr "argument should be a str or an os.PathLike object")
  match pathCheck with
  | some e => Except.error e
  | none =>
    let cmdCheck : Option ShieldExc :=
      match alookup parameters "command" with
      | none => none
      | some (JVal.s c) => (checkCommand sh.dangerous_commands c).map ShieldExc.shieldErr
      | some _ => some (ShieldExc.typeErr "argument of non-string type is not iterable")
    match cmdCheck with
    | some e => Except.error e
    | none =>
      match action with
      | ShieldAction.DENY =>
          Except.error (ShieldExc.shieldErr ("Satellite \x27" ++ satellite.name ++
            "\x27 blocked due to " ++ satellite.safety_level.value ++ " safety level"))
      | ShieldAction.REQUIRE_CONFIRMATION =>
        match sh.confirmation_callback with
        | some cb =>
            if cb satellite parameters then Except.ok true
            else Except.error (ShieldExc.shieldErr "User denied the mission")
        | none =>
            Except.error (ShieldExc.shieldErr ("Satellite \x27" ++ satellite.name ++
              "\x27 requires confirmation but no callback provided"))
      | ShieldAction.ALLOW => Except.ok true

/-- Built-in Python exceptions the constellation raises (`ValueError` on
duplicate/missing names, `KeyError` on a missing dict key). -/
inductive PyExc where
  | valueError (message : String)
  | keyError (key : String)
deriving DecidableEq, Repr

/-- `Constellation` state from `constellation.py`: the name-keyed satellite
dict and the category index (category name to list of satellite names, in
registration order). -/
structure Constellation where
  satellites : List (String × Satellite)
  categories : List (String × List String)

/-- The freshly constructed (empty) constellation. -/
def Constellation.empty : Constellation := ⟨[], []⟩

/-- `Constellation.register`: raise `ValueError` before any mutation when the
name is taken; otherwise insert into the satellite dict and append to the
category index (creating the category entry if needed).  The pair returned is
(raised exception if any, object state afterwards). -/
def Constellation.register (c : Constellation) (satellite : Satellite) :
    Option PyExc × Constellation :=
  if containsKey c.satellites satellite.name then
    (some (PyExc.valueError ("Satellite \x27" ++ satellite.name ++ "\x27 already registered")), c)
  else
    let sats := aset c.satellites satellite.name satellite
    let cats :=
      if containsKey c.categories satellite.category then c.categories
      else aset c.categories satellite.category []
    let cats := aset cats satellite.category
      ((alookup cats satellite.category).getD [] ++ [satellite.name])
    (none, ⟨sats, cats⟩)

/-- `Constellation.unregister`: raise `ValueError` when the name is unknown;
otherwise `self._categories[satellite.category].remove(name)` followed by
`del self._satellites[name]`.  The category key is left in place even when
its list becomes empty.  The `KeyError` / `list.remove` failure branches are
unreachable while the registry invariant (both indices agree) holds. -/
def Constellation.unregister (c : Constellation) (name : String) :
    Option PyExc × Constellation :=
  match alookup c.satellites name with
  | none => (some (PyExc.valueError ("Satellite \x27" ++ name ++ "\x27 not found")), c)
  | some satellite =>
    match alookup c.categories satellite.category with
    | none => (some (PyExc.keyError satellite.category), c)
    | some lst =>
      if lst.contains name then
        (none, ⟨aerase c.satellites name,
                aset c.categories satellite.category (lst.erase name)⟩)
      else
        (some (PyExc.valueError "list.remove(x): x not in list"), c)

/-- `Constellation.get`: plain dict `.get`, no exception. -/
def Constellation.get (c : Constellation) (name : String) : Option Satellite :=
  alookup c.satellites name

/-- The `AppleScriptError` exception from `exceptions.py` with its optional
`script` and `return_code` fields.  `cls` records which class in the
hierarchy was constructed (`AppleScriptTimeoutError` is the dedicated
subclass; the permission/syntax subclasses are never raised by the core and
are omitted). -/
inductive AppleExcClass where
  | base
  | timeoutSub
deriving DecidableEq, Repr

/-- An `AppleScriptError` (or subclass) instance. -/
structure AppleScriptError where
  cls : AppleExcClass
  message : String
  script : Option String := none
  return_code : Option Int := none
deriving DecidableEq, Repr

/-- One observable behaviour of `subprocess.run(["osascript", "-e", script],
capture_output=True, text=True, timeout=...)`: either it raises
`subprocess.TimeoutExpired` or it returns a completed process with an exit
status, stdout and stderr. -/
inductive ProcOutcome where
  | timeout
  | finished (returncode : Int) (stdout : String) (stderr : String)

/-- `Launcher._execute_applescript` from `launcher.py`.  The whole body sits
in one `try` whose handlers are `except subprocess.TimeoutExpired` and a
blanket `except Exception`.  Consequences mirrored here:
  * a timeout is converted to a *base-class* `AppleScriptError` with no
    script/return_code (the `AppleScriptTimeoutError` subclass is never
    constructed);
  * on a non-zero exit status the source first evaluates
    `format_error_with_hint(error_msg, satellite.name)` - but `satellite` is
    not bound inside this method, so the line raises
    `NameError: name \x27satellite\x27 is not defined`, which the blanket
    handler converts to `AppleScriptError("Unexpected error: ...")`; the
    `raise AppleScriptError(...)` statements carrying the script, exit code
    and stderr are unreachable (and would themselves be re-caught and
    stripped by the same blanket handler);
  * on a zero exit status the stripped stdout is returned. -/
def executeApplescript (timeoutSecs : Nat) (script : String) (outcome : ProcOutcome) :
    Except AppleScriptError String :=
  match outcome with
  | ProcOutcome.timeout =>
      Except.error
        { cls := AppleExcClass.base
          message := "Script execution timed out after " ++ toString timeoutSecs ++ "s" }
  | ProcOutcome.finished returncode stdout _stderr =>
    if returncode ≠ 0 then
      Except.error
        { cls := AppleExcClass.base
          message := "Unexpected error: name \x27satellite\x27 is not defined" }
    else
      Except.ok (pyStrip stdout)
  -- the unused binder name records that the stripped stderr is computed and
  -- then lost when the NameError pre-empts the enriched-error construction

/-- Substitute a jinja2 template: a defined placeholder renders as the
`str()` of its value, an undefined one as the empty string (jinja2's default
permissive `Undefined`). -/
def renderJinjaParts (parameters : List (String × JVal)) : List TmplPart → String
  | [] => ""
  | TmplPart.lit s :: rest => s ++ renderJinjaParts parameters rest
  | TmplPart.var n :: rest =>
    (match alookup parameters n with
     | some v => pyStr v
     | none => "") ++ renderJinjaParts parameters rest

/-- Substitute via `str.format(**parameters)` (the no-jinja2 fallback): a
missing placeholder raises `KeyError`, whose `str()` is the quoted key. -/
def renderFormatParts (parameters : List (String × JVal)) : List TmplPart → Except String String
  | [] => Except.ok ""
  | TmplPart.lit s :: rest => (renderFormatParts parameters rest).map (fun r => s ++ r)
  | TmplPart.var n :: rest =>
    match alookup parameters n with
    | some v => (renderFormatParts parameters rest).map (fun r => pyStr v ++ r)
    | none => Except.error ("\x27" ++ n ++ "\x27")

/-- `Launcher._render_template`: with jinja2 importable the template renders
through `jinja2.Template(...).render(**parameters)` (which cannot fail on a
well-formed substitution template); without it, `template.format(**parameters)`
whose `KeyError` becomes `TemplateRenderingError("Missing parameter: ...")`. -/
def renderTemplate (hasJinja2 : Bool) (template : List TmplPart)
    (parameters : List (String × JVal)) : Except String String :=
  if hasJinja2 then Except.ok (renderJinjaParts parameters template)
  else
    match renderFormatParts parameters template with
    | Except.ok s => Except.ok s
    | Except.error k => Except.error ("Missing parameter: " ++ k)

/-- The `Launcher` instance state (`Launcher.__init__`). -/
structure Launcher where
  safety_shield : Option Shield := none
  timeout : Nat := 30
  retry_on_failure : Bool := false
  max_retries : Nat := 3

/-- The exceptions `Launcher.launch` can raise. -/
inductive LaunchExc where
  | parameterValidation (message : String)
  | shieldErr (message : String)
  | typeErr (message : String)
  | templateRendering (message : String)
  | apple (e : AppleScriptError)
  | unboundResult

/-- The `for attempt in range(max_retries): ... else: ...` retry loop of
`Launcher.launch`, returning the outcome together with the number of
`_execute_applescript` calls made.  `remaining` counts the iterations left,
so the loop index is `attempt` and `remaining = max_retries - attempt`; the
source's `attempt == max_retries - 1` test is `remaining = 1` here.  When the
range is empty (`max_retries = 0`) the loop body never runs, `last_error`
stays `None`, and the subsequent read of `result` raises `NameError`
(`LaunchExc.unboundResult`); that case is reported by the caller. -/
def runAttempts (retry_on_failure : Bool)
    (ex : Nat → Except AppleScriptError String) :
    (remaining : Nat) → (attempt : Nat) → (Except (Option AppleScriptError) String) × Nat
  | 0, _ => (Except.error none, 0)
  | remaining + 1, attempt =>
    match ex attempt with
    | Except.ok r => (Except.ok r, 1)
    | Except.error e =>
      if remaining = 0 then (Except.error (some e), 1)
      else if !retry_on_failure then (Except.error (some e), 1)
      else
        let next := runAttempts retry_on_failure ex remaining (attempt + 1)
        (next.1, next.2 + 1)

/-- `Launcher.launch` from `launcher.py`: validate parameters, run the
safety shield (unless bypassed or absent), render the template, execute with
the retry loop, then apply the optional result parser.  `hasJinja2` models
whether the jinja2 import succeeded, `env` the filesystem environment, and
`oracle` the behaviour of the subprocess facility on each attempt.  The
returned pair carries the outcome and how many times the external process
was spawned. -/
def Launcher.launch (l : Launcher) (hasJinja2 : Bool) (env : Env)
    (satellite : Satellite) (parameters : List (String × JVal))
    (bypass_shield : Bool) (oracle : Nat → ProcOutcome) :
    Except LaunchExc String × Nat :=
  match satellite.validate_parameters parameters with
  | Except.error m => (Except.error (LaunchExc.parameterValidation m), 0)
  | Except.ok _ =>
    let shieldStep : Option LaunchExc :=
      if !bypass_shield then
        match l.safety_shield with
        | some sh =>
          match Shield.validate env sh satellite parameters with
          | Except.error (ShieldExc.shieldErr m) => some (LaunchExc.shieldErr m)
          | Except.error (ShieldExc.typeErr m) => some (LaunchExc.typeErr m)
          | Except.ok _ => none
        | none => none
      else none
    match shieldStep with
    | some e => (Except.error e, 0)
    | none =>
      match renderTemplate hasJinja2 satellite.applescript_template parameters with
      | Except.error m => (Except.error (LaunchExc.templateRendering m), 0)
      | Except.ok script =>
        match runAttempts l.retry_on_failure
            (fun attempt => executeApplescript l.timeout script (oracle attempt))
            l.max_retries 0 with
        | (Except.ok raw, n) =>
          match satellite.resultParser with
          | some f => (Except.ok (f raw), n)
          | none => (Except.ok raw, n)
        | (Except.error (some e), n) => (Except.error (LaunchExc.apple e), n)
        | (Except.error none, n) => (Except.error LaunchExc.unboundResult, n)

/-- The per-parameter dict of the comprehension at the top of
`Satellite.to_openai_function`. -/
def basePropObj (p : SatelliteParameter) : JVal :=
  JVal.obj [("type", JVal.s p.type), ("description", JVal.s p.description)]

/-- The dict comprehension `\x7bparam.name: \x7b...\x7d for param in
self.parameters\x7d` (a later duplicate name overwrites an earlier one, as
in a dict). -/
def buildProperties (params : List SatelliteParameter) : List (String × JVal) :=
  params.foldl (fun acc p => aset acc p.name (basePropObj p)) []

/-- In-place update of the object stored under `k` (the source mutates
`properties[param.name]`, which is always present because `properties` was
built from the same parameter list). -/
def mutateObj (props : List (String × JVal)) (k : String)
    (f : List (String × JVal) → List (String × JVal)) : List (String × JVal) :=
  match alookup props k with
  | some (JVal.obj fields) => aset props k (JVal.obj (f fields))
  | _ => props

/-- Body of the second loop of `Satellite.to_openai_function`: add `default`
when the declared default is not `None`, and `enum` when the enum list is
truthy. -/
def extrasStep (acc : List (String × JVal)) (p : SatelliteParameter) :
    List (String × JVal) :=
  let acc1 := match p.default with
    | some d => mutateObj acc p.name (fun fields => aset fields "default" d)
    | none => acc
  match p.enum with
  | some es@(_ :: _) => mutateObj acc1 p.name (fun fields => aset fields "enum" (JVal.arr es))
  | _ => acc1

/-- The second loop of `Satellite.to_openai_function`. -/
def addDefaultsAndEnums (params : List SatelliteParameter)
    (props : List (String × JVal)) : List (String × JVal) :=
  params.foldl extrasStep props

/-- The fully built `properties` dict of `Satellite.to_openai_function`. -/
def fullProperties (params : List SatelliteParameter) : List (String × JVal) :=
  addDefaultsAndEnums params (buildProperties params)

/-- The `required` list of `Satellite.to_openai_function`:
`[p.name for p in self.parameters if p.required]`. -/
def requiredNames (params : List SatelliteParameter) : List JVal :=
  (params.filter (fun p => p.required)).map (fun p => JVal.s p.name)

/-- `Satellite.to_openai_function` from `satellite.py`: the emitted object is
`\x7b"type": "function", "function": \x7bname, description, parameters\x7d\x7d`. -/
def Satellite.to_openai_function (sat : Satellite) : JVal :=
  JVal.obj
    [("type", JVal.s "function"),
     ("function", JVal.obj
       [("name", JVal.s sat.name),
        ("description", JVal.s sat.description),
        ("parameters", JVal.obj
          [("type", JVal.s "object"),
           ("properties", JVal.obj (fullProperties sat.parameters)),
           ("required", JVal.arr (requiredNames sat.parameters))])])]

/-- Field lookup on an embedded JSON object. -/
def objLookup (j : JVal) (k : String) : Option JVal :=
  match j with
  | JVal.obj fields => alookup fields k
  | _ => none

/-! ## Shared lemmas -/

theorem checkPathLoop_hit (resolved : PPath) (path : String) :
    ∀ pp : List PPath, (∃ prot ∈ pp, isRelativeTo resolved prot = true) →
    checkPathLoop resolved path pp = some ("Protected path detected: " ++ path) := by
  intro pp
  induction pp with
  | nil => intro h; simp at h
  | cons prot rest ih =>
    intro h
    by_cases hrel : isRelativeTo resolved prot = true
    · simp [checkPathLoop, hrel]
    · simp only [checkPathLoop, hrel, if_false]
      rcases h with ⟨q, hq, hrelq⟩
      rcases List.mem_cons.mp hq with rfl | hmem
      · exact absurd hrelq hrel
      · exact ih ⟨q, hmem, hrelq⟩

theorem checkCommand_hit (command : String) :
    ∀ dc : List String, (∃ d ∈ dc, strContains command d = true) →
    checkCommand dc command = some ("Dangerous command detected: " ++ command) := by
  intro dc
  induction dc with
  | nil => intro h; simp at h
  | cons d rest ih =>
    intro h
    by_cases hd : strContains command d = true
    · simp [checkCommand, hd]
    · simp only [checkCommand, hd, if_false]
      rcases h with ⟨q, hq, hcq⟩
      rcases List.mem_cons.mp hq with rfl | hmem
      · exact absurd hcq hd
      · exact ih ⟨q, hmem, hcq⟩

/-! ## Claims -/

/-- Claim C1: the protected-path and dangerous-command checks in
`SafetyShield.validate` are unconditional.  If the invocation parameters
carry a key literally named "path" whose value resolves (after home
expansion and normalization) equal to or nested under some protected entry,
`validate` raises `ShieldError` - for every rule table, so in particular for
one that maps the satellite's risk level to ALLOW.  Likewise, if the
parameters carry a key literally named "command" whose string value contains
a dangerous-command entry as a substring (and the "path" value, when
present, is a string, so that the path check itself can only raise
`ShieldError`), `validate` raises `ShieldError`. -/
theorem shield_blocklist_checks_unconditional :
    (∀ (env : Env) (sh : Shield) (sat : Satellite) (params : List (String × JVal)) (p : String),
      alookup params "path" = some (JVal.s p) →
      (∃ prot ∈ sh.protected_paths, isRelativeTo (resolvePath env p) prot = true) →
      Shield.validate env sh sat params =
        Except.error (ShieldExc.shieldErr ("Protected path detected: " ++ p)))
    ∧
    (∀ (env : Env) (sh : Shield) (sat : Satellite) (params : List (String × JVal)) (c : String),
      alookup params "command" = some (JVal.s c) →
      (∃ d ∈ sh.dangerous_commands, strContains c d = true) →
      (∀ v, alookup params "path" = some v → ∃ pstr, v = JVal.s pstr) →
      ∃ m, Shield.validate env sh sat params = Except.error (ShieldExc.shieldErr m)) := by
  constructor
  · intro env sh sat params p hpath hprot
    simp [Shield.validate, hpath, checkPath,
      checkPathLoop_hit (resolvePath env p) p sh.protected_paths hprot]
  · intro env sh sat params c hcmd hdang hpathstr
    cases hpath : alookup params "path" with
    | none =>
      refine ⟨"Dangerous command detected: " ++ c, ?_⟩
      simp [Shield.validate, hpath, hcmd, checkCommand_hit c sh.dangerous_commands hdang]
    | some v =>
      rcases hpathstr v hpath with ⟨pstr, rfl⟩
      cases hchk : checkPath env sh.protected_paths pstr with
      | some m =>
        refine ⟨m, ?_⟩
        simp [Shield.validate, hpath, hchk]
      | none =>
        refine ⟨"Dangerous command detected: " ++ c, ?_⟩
        simp [Shield.validate, hpath, hchk, hcmd,
          checkCommand_hit c sh.dangerous_commands hdang]

/-- A SAFE satellite used for concrete checks (risk level SAFE maps to ALLOW
in the default rule table). -/
def sampleSafeSat : Satellite :=
  { name := "system_info"
    description := "Get system information"
    category := "system"
    parameters := []
    safety_level := SafetyLevel.SAFE
    applescript_template := [TmplPart.lit "return system info"] }

/-- Witness for C1: the spec scenario.  The default shield protects
`/System`; invoking the SAFE satellite (whose risk level the default table
maps to ALLOW) with `path = "/System/Library/x"` raises `ShieldError`. -/
theorem shield_blocklist_checks_unconditional_witness :
    (alookup [("path", JVal.s "/System/Library/x")] "path" = some (JVal.s "/System/Library/x"))
    ∧ (∃ prot ∈ (mkShield none none none none).protected_paths,
        isRelativeTo (resolvePath ⟨"/Users/u", "/Users/u"⟩ "/System/Library/x") prot = true)
    ∧ (alookup (mkShield none none none none).rules sampleSafeSat.safety_level =
        some ShieldAction.ALLOW)
    ∧ Shield.validate ⟨"/Users/u", "/Users/u"⟩ (mkShield none none none none) sampleSafeSat
        [("path", JVal.s "/System/Library/x")] =
        Except.error (ShieldExc.shieldErr "Protected path detected: /System/Library/x") :=
  ⟨rfl, by decide, rfl,
    shield_blocklist_checks_unconditional.1 ⟨"/Users/u", "/Users/u"⟩
      (mkShield none none none none) sampleSafeSat
      [("path", JVal.s "/System/Library/x")] "/System/Library/x" rfl (by decide)⟩

/-- Claim C10: `SafetyShield.__init__` routes every collection argument
through Python `or`, so an explicitly empty rule table, protected-path list
or dangerous-command list is silently replaced by the class-level default -
constructing with empty collections gives the same shield as omitting them,
and under `rules = \x7b\x7d` validation still allows SAFE and denies
CRITICAL per the default table. -/
theorem shield_init_empty_collections_use_defaults :
    (∀ cb, mkShield (some []) cb (some []) (some []) = mkShield none cb none none)
    ∧ (∀ cb, (mkShield (some []) cb (some []) (some [])).rules = DEFAULT_RULES
        ∧ (mkShield (some []) cb (some []) (some [])).protected_paths = PROTECTED_PATHS
        ∧ (mkShield (some []) cb (some []) (some [])).dangerous_commands = DANGEROUS_COMMANDS)
    ∧ (∀ (env : Env) cb (sat : Satellite),
        Shield.validate env (mkShield (some []) cb (some []) (some []))
          { sat with safety_level := SafetyLevel.SAFE } [] = Except.ok true)
    ∧ (∀ (env : Env) cb (sat : Satellite),
        Shield.validate env (mkShield (some []) cb (some []) (some []))
          { sat with safety_level := SafetyLevel.CRITICAL } [] =
          Except.error (ShieldExc.shieldErr ("Satellite \x27" ++ sat.name ++
            "\x27 blocked due to " ++ "critical" ++ " safety level"))) :=
  ⟨fun _ => rfl,
   fun _ => ⟨rfl, rfl, rfl⟩,
   fun _ _ _ => rfl,
   fun _ _ _ => rfl⟩

/-- Claim C8: `Constellation.register` checks for a duplicate identifier
before any mutation, so a duplicate raises `ValueError` and the state after
the failed call is exactly the state before it. -/
theorem register_duplicate_raises_and_preserves_state :
    ∀ (c : Constellation) (s : Satellite),
      containsKey c.satellites s.name = true →
      c.register s =
        (some (PyExc.valueError ("Satellite \x27" ++ s.name ++ "\x27 already registered")), c) := by
  intro c s h
  simp [Constellation.register, h]

/-- Constellation holding exactly `sampleSafeSat` (for concrete checks). -/
def oneSatCon : Constellation := (Constellation.empty.register sampleSafeSat).2

/-- Witness for C8: registering `sampleSafeSat` twice fails the second time
and leaves the one-satellite state untouched. -/
theorem register_duplicate_raises_and_preserves_state_witness :
    containsKey oneSatCon.satellites sampleSafeSat.name = true
    ∧ oneSatCon.register sampleSafeSat =
        (some (PyExc.valueError "Satellite \x27system_info\x27 already registered"), oneSatCon) :=
  ⟨rfl, register_duplicate_raises_and_preserves_state oneSatCon sampleSafeSat rfl⟩

/-- The satellite of the repository's own `unregister` test: the only member
of category `unique_category`. -/
def uniqueCatSat : Satellite :=
  { name := "test_sat"
    description := "Test"
    category := "unique_category"
    parameters := []
    safety_level := SafetyLevel.SAFE
    applescript_template := [TmplPart.lit "return test"] }

/-- Constellation holding exactly `uniqueCatSat`. -/
def uniqueCatCon : Constellation := (Constellation.empty.register uniqueCatSat).2

/-- Counterexample to claim C4 as stated: unregistering the last satellite of
a category does NOT remove the category key - `Constellation.unregister`
only calls `list.remove` on the category's list, so the key stays, mapped to
the empty list. -/
theorem unregister_keeps_empty_category_counterexample :
    (uniqueCatCon.unregister "test_sat").1 = none
    ∧ ((uniqueCatCon.unregister "test_sat").2).satellites = []
    ∧ ((uniqueCatCon.unregister "test_sat").2).categories = [("unique_category", [])]
    ∧ containsKey ((uniqueCatCon.unregister "test_sat").2).categories "unique_category" = true :=
  ⟨rfl, rfl, rfl, rfl⟩

/-- Auxiliary: looking up the key just set. -/
theorem alookup_aset_self {κ α : Type} [BEq κ] [LawfulBEq κ] :
    ∀ (l : List (κ × α)) (k : κ) (v : α), alookup (aset l k v) k = some v := by
  intro l k v
  induction l with
  | nil => simp [aset, alookup]
  | cons h t ih =>
    obtain ⟨k2, v2⟩ := h
    by_cases hk : (k2 == k) = true
    · simp [aset, alookup, hk]
    · simp only [aset, alookup, hk, Bool.false_eq_true, if_false]
      simpa [alookup, hk] using ih

/-- Auxiliary: setting one key leaves lookups of other keys unchanged. -/
theorem alookup_aset_ne {κ α : Type} [BEq κ] [LawfulBEq κ] :
    ∀ (l : List (κ × α)) (k k2 : κ) (v : α), (k2 == k) = false →
    alookup (aset l k2 v) k = alookup l k := by
  intro l k k2 v hne
  induction l with
  | nil => simp [aset, alookup, hne]
  | cons h t ih =>
    obtain ⟨k3, v3⟩ := h
    by_cases hk : (k3 == k2) = true
    · have hEq : k3 = k2 := eq_of_beq hk
      subst hEq
      simp [aset, alookup, hk, hne]
    · simp only [aset, alookup, hk, Bool.false_eq_true, if_false]
      by_cases hk3 : (k3 == k) = true
      · simp [alookup, hk3]
      · simp [alookup, hk3, ih]

/-- Claim C4, amended: `unregister` of a registered name removes the
satellite from the identifier map and its name from the category list, but
the category key itself remains (mapped to the now possibly empty list);
`unregister` of an absent name raises `ValueError` and changes nothing. -/
theorem unregister_removes_from_both_but_keeps_category_key :
    (∀ (c : Constellation) (nm : String) (sat : Satellite) (lst : List String),
      alookup c.satellites nm = some sat →
      alookup c.categories sat.category = some lst →
      lst.contains nm = true →
      c.unregister nm =
        (none, ⟨aerase c.satellites nm, aset c.categories sat.category (lst.erase nm)⟩)
      ∧ containsKey (aset c.categories sat.category (lst.erase nm)) sat.category = true)
    ∧ (∀ (c : Constellation) (nm : String),
      alookup c.satellites nm = none →
      c.unregister nm =
        (some (PyExc.valueError ("Satellite \x27" ++ nm ++ "\x27 not found")), c)) := by
  constructor
  · intro c nm sat lst hsat hcat hmem
    refine ⟨?_, ?_⟩
    · simp [Constellation.unregister, hsat, hcat, hmem]
      exact List.elem_iff.mp hmem
    · simp [containsKey, alookup_aset_self]
  · intro c nm hnone
    simp [Constellation.unregister, hnone]

/-- Witness for C4 (amended): concrete run on the one-satellite registry;
`test_sat` disappears from both indices and `unique_category` stays behind,
mapped to `[]`. -/
theorem unregister_removes_from_both_but_keeps_category_key_witness :
    alookup uniqueCatCon.satellites "test_sat" = some uniqueCatSat
    ∧ (uniqueCatCon.unregister "test_sat" =
        (none, ⟨aerase uniqueCatCon.satellites "test_sat",
                aset uniqueCatCon.categories uniqueCatSat.category
                  (["test_sat"].erase "test_sat")⟩)
      ∧ containsKey (aset uniqueCatCon.categories uniqueCatSat.category
          (["test_sat"].erase "test_sat")) uniqueCatSat.category = true)
    ∧ (Constellation.empty.unregister "ghost" =
        (some (PyExc.valueError "Satellite \x27ghost\x27 not found"), Constellation.empty)) :=
  ⟨rfl,
   unregister_removes_from_both_but_keeps_category_key.1 uniqueCatCon "test_sat"
     uniqueCatSat ["test_sat"] rfl rfl rfl,
   unregister_removes_from_both_but_keeps_category_key.2 Constellation.empty "ghost" rfl⟩

/-- Claim C2 (code bug): on `subprocess.TimeoutExpired` the launcher raises
the *base* `AppleScriptError` ("Script execution timed out after ...s"), not
the dedicated `AppleScriptTimeoutError` subclass declared (and exported but
never raised) in `exceptions.py`.  The `cls := base` component below records
the constructed class. -/
theorem timeout_raises_base_class_not_timeout_subclass :
    ∀ (timeoutSecs : Nat) (script : String),
      executeApplescript timeoutSecs script ProcOutcome.timeout =
        Except.error
          { cls := AppleExcClass.base
            message := "Script execution timed out after " ++ toString timeoutSecs ++ "s"
            script := none
            return_code := none } :=
  fun _ _ => rfl

/-- Claim C3 (code bug): on any non-zero exit status the raised error is
`AppleScriptError("Unexpected error: name \x27satellite\x27 is not
defined")` with `script = None` and `return_code = None` - the
`format_error_with_hint(error_msg, satellite.name)` line references the
unbound name `satellite` and the resulting `NameError` is swallowed by the
blanket `except Exception`, so the error object carries neither the rendered
command, nor the exit code, nor the stderr text. -/
theorem nonzero_exit_error_carries_no_fields :
    ∀ (timeoutSecs : Nat) (script : String) (rc : Int) (stdout stderr : String),
      rc ≠ 0 →
      executeApplescript timeoutSecs script (ProcOutcome.finished rc stdout stderr) =
        Except.error
          { cls := AppleExcClass.base
            message := "Unexpected error: name \x27satellite\x27 is not defined"
            script := none
            return_code := none } := by
  intro t s rc o e h
  simp [executeApplescript, h]

/-- Witness for C3: the repository test's own input (`invalid script`, exit
status 1, stderr `Script error: syntax error`). -/
theorem nonzero_exit_error_carries_no_fields_witness :
    (1 : Int) ≠ 0
    ∧ executeApplescript 30 "invalid script"
        (ProcOutcome.finished 1 "" "Script error: syntax error") =
      Except.error
        { cls := AppleExcClass.base
          message := "Unexpected error: name \x27satellite\x27 is not defined"
          script := none
          return_code := none } :=
  ⟨by decide,
   nonzero_exit_error_carries_no_fields 30 "invalid script" 1 "" "Script error: syntax error"
     (by decide)⟩

/-- The template of the repository's `test_render_template_missing_param`
test: `return \x27\x7b\x7b missing_param \x7d\x7d\x27`. -/
def missingParamTemplate : List TmplPart :=
  [TmplPart.lit "return \x27", TmplPart.var "missing_param", TmplPart.lit "\x27"]

/-- Claim C5 (code bug): with jinja2 importable (it is a declared install
dependency), a template referencing an absent parameter with no default
renders the reference as empty text and `_render_template` succeeds - no
`TemplateRenderingError` is raised.  Only the no-jinja2 `str.format`
fallback raises it, which is what the claim (and the repository's own test)
describe. -/
theorem jinja_missing_param_renders_empty :
    renderTemplate true missingParamTemplate [] = Except.ok "return \x27\x27"
    ∧ renderTemplate false missingParamTemplate [] =
        Except.error "Missing parameter: \x27missing_param\x27" :=
  ⟨rfl, rfl⟩

/-- The single `AppleScriptError` value that every failing execution attempt
produces under the unbound-`satellite` NameError (see
`nonzero_exit_error_carries_no_fields`). -/
def unexpectedNameError : AppleScriptError :=
  { cls := AppleExcClass.base
    message := "Unexpected error: name \x27satellite\x27 is not defined" }

/-- Claim C6: retry accounting of `Launcher.launch`.  With
`retry_on_failure = true` and `max_retries = 3`: if the execution primitive
fails on the first two attempts and succeeds on the third, `launch` returns
the success result after exactly 3 process spawns; if every attempt fails it
re-raises the last error after exactly 3 spawns.  With retry disabled, a
single failing attempt raises after exactly 1 spawn. -/
theorem retry_policy_call_counts :
    (∀ (t : Nat) (env : Env) (sat : Satellite) (oracle : Nat → ProcOutcome)
       (rc0 rc1 : Int) (o0 e0 o1 e1 out err : String),
      sat.parameters = [] → sat.resultParser = none →
      oracle 0 = ProcOutcome.finished rc0 o0 e0 → rc0 ≠ 0 →
      oracle 1 = ProcOutcome.finished rc1 o1 e1 → rc1 ≠ 0 →
      oracle 2 = ProcOutcome.finished 0 out err →
      Launcher.launch ⟨none, t, true, 3⟩ true env sat [] false oracle =
        (Except.ok (pyStrip out), 3))
    ∧ (∀ (t : Nat) (env : Env) (sat : Satellite) (oracle : Nat → ProcOutcome)
         (rc : Nat → Int) (o e : Nat → String),
      sat.parameters = [] → sat.resultParser = none →
      (∀ i, oracle i = ProcOutcome.finished (rc i) (o i) (e i)) →
      (∀ i, rc i ≠ 0) →
      Launcher.launch ⟨none, t, true, 3⟩ true env sat [] false oracle =
        (Except.error (LaunchExc.apple unexpectedNameError), 3))
    ∧ (∀ (t : Nat) (env : Env) (sat : Satellite) (oracle : Nat → ProcOutcome)
         (rc0 : Int) (o0 e0 : String),
      sat.parameters = [] → sat.resultParser = none →
      oracle 0 = ProcOutcome.finished rc0 o0 e0 → rc0 ≠ 0 →
      Launcher.launch ⟨none, t, false, 3⟩ true env sat [] false oracle =
        (Except.error (LaunchExc.apple unexpectedNameError), 1)) := by
  refine ⟨?_, ?_, ?_⟩
  · intro t env sat oracle rc0 rc1 o0 e0 o1 e1 out err hp hrp ho0 hrc0 ho1 hrc1 ho2
    have hval : sat.validate_parameters [] = Except.ok true := by
      simp [Satellite.validate_parameters, hp]
    have hex0 : ∀ s, executeApplescript t s (oracle 0) = Except.error unexpectedNameError := by
      intro s; rw [ho0]; simp [executeApplescript, hrc0, unexpectedNameError]
    have hex1 : ∀ s, executeApplescript t s (oracle 1) = Except.error unexpectedNameError := by
      intro s; rw [ho1]; simp [executeApplescript, hrc1, unexpectedNameError]
    have hex2 : ∀ s, executeApplescript t s (oracle 2) = Except.ok (pyStrip out) := by
      intro s; rw [ho2]; simp [executeApplescript]
    simp [Launcher.launch, hval, renderTemplate, hrp, runAttempts, hex0, hex1, hex2]
  · intro t env sat oracle rc o e hp hrp ho hrc
    have hval : sat.validate_parameters [] = Except.ok true := by
      simp [Satellite.validate_parameters, hp]
    have hex : ∀ i s, executeApplescript t s (oracle i) = Except.error unexpectedNameError := by
      intro i s; rw [ho i]; simp [executeApplescript, hrc i, unexpectedNameError]
    simp [Launcher.launch, hval, renderTemplate, hrp, runAttempts, hex]
  · intro t env sat oracle rc0 o0 e0 hp hrp ho0 hrc0
    have hval : sat.validate_parameters [] = Except.ok true := by
      simp [Satellite.validate_parameters, hp]
    have hex0 : ∀ s, executeApplescript t s (oracle 0) = Except.error unexpectedNameError := by
      intro s; rw [ho0]; simp [executeApplescript, hrc0, unexpectedNameError]
    simp [Launcher.launch, hval, renderTemplate, hrp, runAttempts, hex0]

/-- A process oracle that fails with exit status 1 on the first two attempts
and succeeds on the third (the repository retry test's stub). -/
def failTwiceOracle : Nat → ProcOutcome := fun i =>
  if i < 2 then ProcOutcome.finished 1 "" "Temporary error"
  else ProcOutcome.finished 0 "test result" ""

/-- A process oracle that always fails with exit status 1. -/
def alwaysFailOracle : Nat → ProcOutcome := fun _ =>
  ProcOutcome.finished 1 "" "Persistent error"

/-- Witness for C6: the three retry scenarios run concretely on
`sampleSafeSat` (no parameters, no result parser). -/
theorem retry_policy_call_counts_witness :
    (Launcher.launch ⟨none, 30, true, 3⟩ true ⟨"/Users/u", "/Users/u"⟩
        sampleSafeSat [] false failTwiceOracle = (Except.ok "test result", 3))
    ∧ (Launcher.launch ⟨none, 30, true, 3⟩ true ⟨"/Users/u", "/Users/u"⟩
        sampleSafeSat [] false alwaysFailOracle =
        (Except.error (LaunchExc.apple unexpectedNameError), 3))
    ∧ (Launcher.launch ⟨none, 30, false, 3⟩ true ⟨"/Users/u", "/Users/u"⟩
        sampleSafeSat [] false alwaysFailOracle =
        (Except.error (LaunchExc.apple unexpectedNameError), 1)) :=
  ⟨retry_policy_call_counts.1 30 ⟨"/Users/u", "/Users/u"⟩ sampleSafeSat failTwiceOracle
      1 1 "" "Temporary error" "" "Temporary error" "test result" ""
      rfl rfl rfl (by decide) rfl (by decide) rfl,
   retry_policy_call_counts.2.1 30 ⟨"/Users/u", "/Users/u"⟩ sampleSafeSat alwaysFailOracle
      (fun _ => 1) (fun _ => "") (fun _ => "Persistent error")
      rfl rfl (fun _ => rfl) (fun _ => (by decide : (1 : Int) ≠ 0)),
   retry_policy_call_counts.2.2 30 ⟨"/Users/u", "/Users/u"⟩ sampleSafeSat alwaysFailOracle
      1 "" "Persistent error" rfl rfl rfl (by decide)⟩

/-- Claim C7: `Launcher.launch` validates the parameters first; when
validation fails the raised error is `ParameterValidationError`, the shield
is never consulted (the launcher configuration, including its shield, is
arbitrary here), no template is rendered and the external process is spawned
0 times - under either value of `bypass_shield`. -/
theorem parameter_validation_runs_first :
    ∀ (l : Launcher) (hasJinja2 : Bool) (env : Env) (sat : Satellite)
      (params : List (String × JVal)) (bypass : Bool) (oracle : Nat → ProcOutcome)
      (m : String),
      sat.validate_parameters params = Except.error m →
      l.launch hasJinja2 env sat params bypass oracle =
        (Except.error (LaunchExc.parameterValidation m), 0) := by
  intro l hasJinja2 env sat params bypass oracle m h
  simp [Launcher.launch, h]

/-- A satellite whose schema requires a `title` parameter. -/
def requiredTitleSat : Satellite :=
  { name := "note_create"
    description := "Create a note"
    category := "notes"
    parameters := [{ name := "title", type := "string", description := "Note title" }]
    safety_level := SafetyLevel.SAFE
    applescript_template := [TmplPart.lit "make note"] }

/-- Witness for C7: invoking the `title`-requiring satellite with empty
parameters raises `ParameterValidationError` with 0 process spawns, both
with and without `bypass_shield`, even with a default shield configured. -/
theorem parameter_validation_runs_first_witness :
    (requiredTitleSat.validate_parameters [] =
      Except.error "Missing required parameter \x27title\x27 for satellite \x27note_create\x27")
    ∧ (Launcher.launch ⟨some (mkShield none none none none), 30, false, 3⟩ true
        ⟨"/Users/u", "/Users/u"⟩ requiredTitleSat []
        false (fun _ => ProcOutcome.finished 0 "" "") =
        (Except.error (LaunchExc.parameterValidation
          "Missing required parameter \x27title\x27 for satellite \x27note_create\x27"), 0))
    ∧ (Launcher.launch ⟨some (mkShield none none none none), 30, false, 3⟩ true
        ⟨"/Users/u", "/Users/u"⟩ requiredTitleSat []
        true (fun _ => ProcOutcome.finished 0 "" "") =
        (Except.error (LaunchExc.parameterValidation
          "Missing required parameter \x27title\x27 for satellite \x27note_create\x27"), 0)) :=
  ⟨rfl,
   parameter_validation_runs_first ⟨some (mkShield none none none none), 30, false, 3⟩ true
     ⟨"/Users/u", "/Users/u"⟩ requiredTitleSat [] false (fun _ => ProcOutcome.finished 0 "" "")
     "Missing required parameter \x27title\x27 for satellite \x27note_create\x27" rfl,
   parameter_validation_runs_first ⟨some (mkShield none none none none), 30, false, 3⟩ true
     ⟨"/Users/u", "/Users/u"⟩ requiredTitleSat [] true (fun _ => ProcOutcome.finished 0 "" "")
     "Missing required parameter \x27title\x27 for satellite \x27note_create\x27" rfl⟩

/-- Auxiliary: the property-building fold leaves keys it never sets
untouched. -/
theorem buildProps_foldl_frame :
    ∀ (ps : List SatelliteParameter) (acc : List (String × JVal)) (k : String),
      (∀ p ∈ ps, (p.name == k) = false) →
      alookup (ps.foldl (fun a q => aset a q.name (basePropObj q)) acc) k = alookup acc k := by
  intro ps
  induction ps with
  | nil => intro acc k _; rfl
  | cons q rest ih =>
    intro acc k h
    simp only [List.foldl_cons]
    rw [ih _ k (fun p hp => h p (List.mem_cons_of_mem q hp))]
    exact alookup_aset_ne acc k q.name (basePropObj q) (h q (List.mem_cons_self q rest))

/-- Auxiliary: with pairwise-distinct parameter names, the property-building
fold maps each parameter's name to its base property object. -/
theorem buildProps_foldl_lookup :
    ∀ (ps : List SatelliteParameter) (acc : List (String × JVal)) (p : SatelliteParameter),
      p ∈ ps → (ps.map (fun q => q.name)).Nodup →
      alookup (ps.foldl (fun a q => aset a q.name (basePropObj q)) acc) p.name =
        some (basePropObj p) := by
  intro ps
  induction ps with
  | nil => intro acc p hmem; exact absurd hmem (List.not_mem_nil p)
  | cons q rest ih =>
    intro acc p hmem hnodup
    rw [List.map_cons, List.nodup_cons] at hnodup
    obtain ⟨hqnotin, hrestnodup⟩ := hnodup
    simp only [List.foldl_cons]
    rcases List.mem_cons.mp hmem with rfl | hmem2
    · rw [buildProps_foldl_frame rest _ p.name ?_]
      · exact alookup_aset_self acc p.name (basePropObj p)
      · intro r hr
        exact beq_eq_false_iff_ne.mpr
          (fun hEq => hqnotin (hEq ▸ List.mem_map_of_mem (fun s => s.name) hr))
    · exact ih _ p hmem2 hrestnodup

/-- Auxiliary: `mutateObj` leaves other keys untouched. -/
theorem alookup_mutateObj_ne (props : List (String × JVal)) (k k2 : String)
    (f : List (String × JVal) → List (String × JVal)) (hne : (k2 == k) = false) :
    alookup (mutateObj props k2 f) k = alookup props k := by
  cases hm : alookup props k2 with
  | none => simp [mutateObj, hm]
  | some v =>
    cases v with
    | obj fields => simp [mutateObj, hm, alookup_aset_ne props k k2 _ hne]
    | s w => simp [mutateObj, hm]
    | i w => simp [mutateObj, hm]
    | b w => simp [mutateObj, hm]
    | null => simp [mutateObj, hm]
    | arr w => simp [mutateObj, hm]

/-- Auxiliary: `mutateObj` applies its field transformer to the object
stored under the mutated key. -/
theorem alookup_mutateObj_self (props : List (String × JVal)) (k : String)
    (f : List (String × JVal) → List (String × JVal)) (fields : List (String × JVal))
    (hm : alookup props k = some (JVal.obj fields)) :
    alookup (mutateObj props k f) k = some (JVal.obj (f fields)) := by
  simp [mutateObj, hm, alookup_aset_self]

/-- What one `extrasStep` does to the value found under the parameter's own
name: non-objects (and absent keys) are untouched; an object gains a
`default` field when the declared default is not `None` and an `enum` field
when the enum is truthy. -/
def extraAt (p : SatelliteParameter) : Option JVal → Option JVal
  | some (JVal.obj fields) =>
    let fields1 := match p.default with
      | some d => aset fields "default" d
      | none => fields
    let fields2 := match p.enum with
      | some es@(_ :: _) => aset fields1 "enum" (JVal.arr es)
      | _ => fields1
    some (JVal.obj fields2)
  | o => o

/-- Whether an embedded value is a dict. -/
def isObjJ : JVal → Bool
  | JVal.obj _ => true
  | _ => false

/-- Auxiliary: `extrasStep` leaves a non-dict value under its own key
untouched (the source's `properties[param.name]` mutations only act on the
dicts the comprehension built). -/
theorem extrasStep_nonobj (acc : List (String × JVal)) (p : SatelliteParameter)
    (v : JVal) (hm : alookup acc p.name = some v) (hno : isObjJ v = false) :
    alookup (extrasStep acc p) p.name = some v := by
  have hmut : ∀ f, mutateObj acc p.name f = acc := by
    intro f
    cases v with
    | obj fs => simp [isObjJ] at hno
    | s w => simp [mutateObj, hm]
    | i w => simp [mutateObj, hm]
    | b w => simp [mutateObj, hm]
    | null => simp [mutateObj, hm]
    | arr w => simp [mutateObj, hm]
  cases hd : p.default with
  | none =>
    cases he : p.enum with
    | none => simp [extrasStep, hd, he, hm]
    | some es =>
      cases es with
      | nil => simp [extrasStep, hd, he, hm]
      | cons e es2 => simp [extrasStep, hd, he, hm, hmut]
  | some d =>
    cases he : p.enum with
    | none => simp [extrasStep, hd, he, hm, hmut]
    | some es =>
      cases es with
      | nil => simp [extrasStep, hd, he, hm, hmut]
      | cons e es2 => simp [extrasStep, hd, he, hm, hmut]

/-- Auxiliary: `extrasStep` realizes `extraAt` at the stepped parameter's
name. -/
theorem extrasStep_at_self (acc : List (String × JVal)) (p : SatelliteParameter) :
    alookup (extrasStep acc p) p.name = extraAt p (alookup acc p.name) := by
  cases hm : alookup acc p.name with
  | none =>
    cases hd : p.default with
    | none =>
      cases he : p.enum with
      | none => simp [extrasStep, hd, he, extraAt, hm]
      | some es =>
        cases es with
        | nil => simp [extrasStep, hd, he, extraAt, hm]
        | cons e es2 => simp [extrasStep, hd, he, extraAt, hm, mutateObj]
    | some d =>
      cases he : p.enum with
      | none => simp [extrasStep, hd, he, extraAt, hm, mutateObj]
      | some es =>
        cases es with
        | nil => simp [extrasStep, hd, he, extraAt, hm, mutateObj]
        | cons e es2 => simp [extrasStep, hd, he, extraAt, hm, mutateObj]
  | some v =>
    cases v with
    | obj fields =>
      cases hd : p.default with
      | none =>
        cases he : p.enum with
        | none => simp [extrasStep, hd, he, extraAt, hm]
        | some es =>
          cases es with
          | nil => simp [extrasStep, hd, he, extraAt, hm]
          | cons e es2 =>
            simp only [extrasStep, hd, he, extraAt, hm]
            exact alookup_mutateObj_self acc p.name _ fields hm
      | some d =>
        cases he : p.enum with
        | none =>
          simp only [extrasStep, hd, he, extraAt, hm]
          exact alookup_mutateObj_self acc p.name _ fields hm
        | some es =>
          cases es with
          | nil =>
            simp only [extrasStep, hd, he, extraAt, hm]
            exact alookup_mutateObj_self acc p.name _ fields hm
          | cons e es2 =>
            simp only [extrasStep, hd, he, extraAt, hm]
            exact alookup_mutateObj_self _ p.name _ _
              (alookup_mutateObj_self acc p.name _ fields hm)
    | s w => simpa [extraAt] using extrasStep_nonobj acc p (JVal.s w) hm rfl
    | i w => simpa [extraAt] using extrasStep_nonobj acc p (JVal.i w) hm rfl
    | b w => simpa [extraAt] using extrasStep_nonobj acc p (JVal.b w) hm rfl
    | null => simpa [extraAt] using extrasStep_nonobj acc p JVal.null hm rfl
    | arr w => simpa [extraAt] using extrasStep_nonobj acc p (JVal.arr w) hm rfl

/-- Auxiliary: `extrasStep` leaves other keys untouched. -/
theorem extrasStep_frame (acc : List (String × JVal)) (p : SatelliteParameter)
    (k : String) (hne : (p.name == k) = false) :
    alookup (extrasStep acc p) k = alookup acc k := by
  cases hd : p.default with
  | none =>
    cases he : p.enum with
    | none => simp [extrasStep, hd, he]
    | some es =>
      cases es with
      | nil => simp [extrasStep, hd, he]
      | cons e es2 => simp [extrasStep, hd, he, alookup_mutateObj_ne _ _ _ _ hne]
  | some d =>
    cases he : p.enum with
    | none => simp [extrasStep, hd, he, alookup_mutateObj_ne _ _ _ _ hne]
    | some es =>
      cases es with
      | nil => simp [extrasStep, hd, he, alookup_mutateObj_ne _ _ _ _ hne]
      | cons e es2 => simp [extrasStep, hd, he, alookup_mutateObj_ne _ _ _ _ hne]

/-- Auxiliary: the defaults/enums fold leaves keys of parameters it never
steps untouched. -/
theorem extras_foldl_frame :
    ∀ (ps : List SatelliteParameter) (acc : List (String × JVal)) (k : String),
      (∀ p ∈ ps, (p.name == k) = false) →
      alookup (ps.foldl extrasStep acc) k = alookup acc k := by
  intro ps
  induction ps with
  | nil => intro acc k _; rfl
  | cons q rest ih =>
    intro acc k h
    simp only [List.foldl_cons]
    rw [ih _ k (fun p hp => h p (List.mem_cons_of_mem q hp))]
    exact extrasStep_frame acc q k (h q (List.mem_cons_self q rest))

/-- Auxiliary: with pairwise-distinct names, the defaults/enums fold acts on
each parameter's entry exactly as that parameter's own step. -/
theorem extras_foldl_lookup :
    ∀ (ps : List SatelliteParameter) (acc : List (String × JVal)) (p : SatelliteParameter),
      p ∈ ps → (ps.map (fun q => q.name)).Nodup →
      alookup (ps.foldl extrasStep acc) p.name = extraAt p (alookup acc p.name) := by
  intro ps
  induction ps with
  | nil => intro acc p hmem; exact absurd hmem (List.not_mem_nil p)
  | cons q rest ih =>
    intro acc p hmem hnodup
    rw [List.map_cons, List.nodup_cons] at hnodup
    obtain ⟨hqnotin, hrestnodup⟩ := hnodup
    simp only [List.foldl_cons]
    rcases List.mem_cons.mp hmem with rfl | hmem2
    · rw [extras_foldl_frame rest _ p.name ?_]
      · exact extrasStep_at_self acc p
      · intro r hr
        exact beq_eq_false_iff_ne.mpr
          (fun hEq => hqnotin (hEq ▸ List.mem_map_of_mem (fun s => s.name) hr))
    · rw [ih _ p hmem2 hrestnodup]
      congr 1
      refine extrasStep_frame acc q p.name (beq_eq_false_iff_ne.mpr ?_)
      intro hEq
      exact hqnotin (hEq ▸ List.mem_map_of_mem (fun s => s.name) hmem2)

/-- Claim C9, amended: `to_openai_function` emits the *wrapped* object
`\x7b"type": "function", "function": \x7bname, description, parameters:
\x7btype: "object", properties, required\x7d\x7d\x7d` (not a flat `\x7bname,
description, parameters\x7d`); inside it, `required` is exactly the list of
parameter names with `required = true` (in declaration order), and - for
pairwise-distinct parameter names, as the data model requires - every
parameter whose declared default is not `None` gets that default under
`properties[name]["default"]`. -/
theorem export_tool_schema_wrapped_shape :
    (∀ sat : Satellite,
      sat.to_openai_function = JVal.obj
        [("type", JVal.s "function"),
         ("function", JVal.obj
           [("name", JVal.s sat.name),
            ("description", JVal.s sat.description),
            ("parameters", JVal.obj
              [("type", JVal.s "object"),
               ("properties", JVal.obj (fullProperties sat.parameters)),
               ("required", JVal.arr
                 ((sat.parameters.filter (fun p => p.required)).map
                   (fun p => JVal.s p.name)))])])])
    ∧ (∀ (sat : Satellite) (p : SatelliteParameter) (d : JVal),
        (sat.parameters.map (fun q => q.name)).Nodup →
        p ∈ sat.parameters → p.default = some d →
        ∃ fields, alookup (fullProperties sat.parameters) p.name = some (JVal.obj fields)
          ∧ alookup fields "default" = some d) := by
  constructor
  · intro sat; rfl
  · intro sat p d hnodup hmem hdef
    have h1 : alookup (buildProperties sat.parameters) p.name = some (basePropObj p) :=
      buildProps_foldl_lookup sat.parameters [] p hmem hnodup
    have h2 : alookup (fullProperties sat.parameters) p.name =
        extraAt p (alookup (buildProperties sat.parameters) p.name) :=
      extras_foldl_lookup sat.parameters (buildProperties sat.parameters) p hmem hnodup
    rw [h1] at h2
    cases he : p.enum with
    | none =>
      refine ⟨aset [("type", JVal.s p.type), ("description", JVal.s p.description)]
        "default" d, ?_, ?_⟩
      · rw [h2]; simp [extraAt, basePropObj, hdef, he]
      · exact alookup_aset_self _ "default" d
    | some es =>
      cases es with
      | nil =>
        refine ⟨aset [("type", JVal.s p.type), ("description", JVal.s p.description)]
          "default" d, ?_, ?_⟩
        · rw [h2]; simp [extraAt, basePropObj, hdef, he]
        · exact alookup_aset_self _ "default" d
      | cons e es2 =>
        refine ⟨aset (aset [("type", JVal.s p.type), ("description", JVal.s p.description)]
          "default" d) "enum" (JVal.arr (e :: es2)), ?_, ?_⟩
        · rw [h2]; simp [extraAt, basePropObj, hdef, he]
        · rw [alookup_aset_ne _ "default" "enum" _ (by decide)]
          exact alookup_aset_self _ "default" d

/-- The required `name` parameter of the round-trip example. -/
def nameParam : SatelliteParameter :=
  { name := "name", type := "string", description := "The note name" }

/-- The optional `count` parameter (integer, default 5) of the round-trip
example. -/
def countParam : SatelliteParameter :=
  { name := "count", type := "integer", description := "How many"
    required := false, default := some (JVal.i 5) }

/-- The round-trip example satellite: one required string parameter `name`
and one optional integer parameter `count` with default 5. -/
def roundTripSat : Satellite :=
  { name := "note_list"
    description := "List notes"
    category := "notes"
    parameters := [nameParam, countParam]
    safety_level := SafetyLevel.SAFE
    applescript_template := [TmplPart.lit "list notes"] }

/-- Counterexample to claim C9 as stated: on the round-trip example the
emitted top-level object has *no* `name`, `description` or `parameters`
keys - they live one level down, inside the `function` wrapper next to
`"type": "function"`. -/
theorem export_tool_schema_flat_shape_counterexample :
    objLookup roundTripSat.to_openai_function "name" = none
    ∧ objLookup roundTripSat.to_openai_function "description" = none
    ∧ objLookup roundTripSat.to_openai_function "parameters" = none
    ∧ objLookup roundTripSat.to_openai_function "type" = some (JVal.s "function")
    ∧ (objLookup roundTripSat.to_openai_function "function").isSome = true :=
  ⟨rfl, rfl, rfl, rfl, rfl⟩

/-- Witness for C9 (amended): on the round-trip example,
`required == ["name"]` and `properties["count"]["default"] == 5`. -/
theorem export_tool_schema_wrapped_shape_witness :
    (roundTripSat.parameters.map (fun q => q.name)).Nodup
    ∧ (∃ fields, alookup (fullProperties roundTripSat.parameters) "count" =
          some (JVal.obj fields) ∧ alookup fields "default" = some (JVal.i 5))
    ∧ requiredNames roundTripSat.parameters = [JVal.s "name"] :=
  ⟨by decide,
   export_tool_schema_wrapped_shape.2 roundTripSat countParam (JVal.i 5)
     (by decide) (List.mem_cons_of_mem nameParam (List.mem_cons_self countParam []))
     rfl,
   rfl⟩

end Orbit
